import Mathlib

/-!
Verification of the Robot Arm Motion & Sequencing Controller
(`lib/robot_arm.py` of the fabric defect dashboard backend).

The controller state is embedded as a record over exact rationals (Python
floats are modelled by ℚ; every angle formula in the source is closed under
rational arithmetic, and the properties checked here are about the exact
formulas, not about rounding).  Servo writes are recorded as an explicit
trace `List (ℕ × ℚ)` (channel, angle), so frame conditions ("this call never
writes the gripper actuator") are statements about the trace.  The per-joint
threads spawned by `move_to_position` act on pairwise distinct channels and
each thread only reads its own servo at start, so the parallel execution is
observation-equivalent to the sequential order used here (same final servo
angles, same per-channel write subsequences).
-/

namespace RobotArm

/-- Controller state: the mutable attributes of `RobotArmController` plus the
servo bank (`self.kit.servo[ch].angle`, `none` when the servo was never
commanded).  `positions` is the injected preset table (`self.positions`);
a preset is an association list from channel to angle, as a Python dict. -/
structure RobotState where
  simulation_mode : Bool
  arm_ready : Bool
  is_busy : Bool
  last_action_time : ℚ
  current_position : String
  gripper_channel : ℕ
  positions : String → Option (List (ℕ × ℚ))
  servoAngles : ℕ → Option ℚ

/-- Write one servo angle (`servo.angle = a`). -/
def setServo (s : RobotState) (ch : ℕ) (a : ℚ) : RobotState :=
  { s with servoAngles := fun c => if c = ch then some a else s.servoAngles c }

/-- Apply a trace of servo writes in order. -/
def applyWrites : RobotState → List (ℕ × ℚ) → RobotState
  | s, [] => s
  | s, w :: rest => applyWrites (setServo s w.1 w.2) rest

/-- `max(0, min(x, 180))`, the clamping applied to the current and target
angles in `smooth_move` (robot_arm.py lines 135-136). -/
def clampAngle (x : ℚ) : ℚ := max 0 (min x 180)

/-- The easing formula of `smooth_move` line 146:
`2 * t * t if t < 0.5 else -1 + (4 - 2 * t) * t`. -/
def easedT (t : ℚ) : ℚ := if t < 1/2 then 2 * t * t else -1 + (4 - 2 * t) * t

/-- The easing formula duplicated in the gripper branch of
`move_to_position_with_gripper` line 235 (textually identical to line 146). -/
def gripperEasedT (t : ℚ) : ℚ := if t < 1/2 then 2 * t * t else -1 + (4 - 2 * t) * t

/-- The loop body of `smooth_move` lines 143-149: for `step` in `1..steps`,
`angle = current + delta * eased(step / steps)`. -/
def smoothProfile (current delta : ℚ) (steps : ℕ) : List ℚ :=
  (List.range steps).map (fun (k : ℕ) => current + delta * easedT (((k : ℚ) + 1) / (steps : ℚ)))

/-- The full write sequence of `smooth_move` in hardware mode, lines 134-151:
clamp both angles, skip when `|delta| < 1`, otherwise emit the eased profile
followed by the exact target write of line 151. -/
def smoothMoveWrites (currentAngle targetAngle : ℚ) (steps : ℕ) : List ℚ :=
  let current := clampAngle currentAngle
  let target := clampAngle targetAngle
  let delta := target - current
  if |delta| < 1 then []
  else smoothProfile current delta steps ++ [target]

/-- `smooth_move(servo, target_angle, steps, ...)` acting on the controller
state; `steps` is the value after the caller-side default resolution.  The
current angle read is `servo.angle if servo.angle is not None else 0`
(line 134).  Simulation mode returns without touching any servo. -/
def smooth_move (s : RobotState) (ch : ℕ) (target : ℚ) (steps : ℕ) :
    RobotState × List (ℕ × ℚ) :=
  if s.simulation_mode then (s, [])
  else
    (applyWrites s ((smoothMoveWrites ((s.servoAngles ch).getD 0) target steps).map
        (fun a => (ch, a))),
      (smoothMoveWrites ((s.servoAngles ch).getD 0) target steps).map (fun a => (ch, a)))

/-- The per-channel thread pool of `move_to_position` lines 170-183 (and the
arm-thread part of `move_to_position_with_gripper` lines 215-223): one
`smooth_move` per entry.  The threads act on pairwise distinct channels, so
running them in list order yields the same final servo angles and the same
per-channel write subsequences as the parallel execution. -/
def moveThreads : RobotState → List (ℕ × ℚ) → ℕ → RobotState × List (ℕ × ℚ)
  | s, [], _ => (s, [])
  | s, p :: rest, steps =>
    let r := smooth_move s p.1 p.2 steps
    let r2 := moveThreads r.1 rest steps
    (r2.1, r.2 ++ r2.2)

/-- `move_to_position(position_dict, steps, ...)` lines 153-183: in hardware
mode, one `smooth_move` thread per entry whose channel differs from
`self.gripper_channel`; simulation mode returns without servo writes. -/
def move_to_position (s : RobotState) (pos : List (ℕ × ℚ)) (steps : ℕ) :
    RobotState × List (ℕ × ℚ) :=
  if s.simulation_mode then (s, [])
  else moveThreads s (pos.filter (fun p => !(p.1 == s.gripper_channel))) steps

/-- The gripper interpolation of `move_to_position_with_gripper` lines
232-244: eased samples from `start_gripper_angle` to `end_gripper_angle`
followed by the exact final write (no clamping, no 1-degree skip). -/
def gripperBranchSamples (startG endG : ℚ) (steps : ℕ) : List ℚ :=
  ((List.range steps).map
    (fun (k : ℕ) => startG + (endG - startG) * gripperEasedT (((k : ℚ) + 1) / (steps : ℚ)))) ++ [endG]

/-- `move_to_position_with_gripper(position_dict, start_gripper_angle,
end_gripper_angle, steps, ...)` lines 185-252: arm threads on non-gripper
channels, plus the explicit gripper interpolation when
`abs(start_gripper_angle - end_gripper_angle) > 5` (line 227).  The gripper
loop runs interleaved with the arm threads in the source; channels are
disjoint, so the canonical arm-then-gripper order below is
observation-equivalent.  The body's exceptions are caught (lines 250-252),
so the call always returns normally. -/
def move_to_position_with_gripper (s : RobotState) (pos : List (ℕ × ℚ))
    (startG endG : ℚ) (steps : ℕ) : RobotState × List (ℕ × ℚ) :=
  if s.simulation_mode then (s, [])
  else if |startG - endG| > 5 then
    (applyWrites (moveThreads s (pos.filter (fun p => !(p.1 == s.gripper_channel))) steps).1
        ((gripperBranchSamples startG endG steps).map (fun a => (s.gripper_channel, a))),
      (moveThreads s (pos.filter (fun p => !(p.1 == s.gripper_channel))) steps).2 ++
        (gripperBranchSamples startG endG steps).map (fun a => (s.gripper_channel, a)))
  else moveThreads s (pos.filter (fun p => !(p.1 == s.gripper_channel))) steps

/-- `gripper_open` lines 254-269: write angle 0 to the gripper channel
(exceptions caught, simulation mode writes nothing). -/
def gripper_open (s : RobotState) : RobotState × List (ℕ × ℚ) :=
  if s.simulation_mode then (s, [])
  else (setServo s s.gripper_channel 0, [(s.gripper_channel, 0)])

/-- `gripper_close` lines 271-286: write angle 180 to the gripper channel. -/
def gripper_close (s : RobotState) : RobotState × List (ℕ × ℚ) :=
  if s.simulation_mode then (s, [])
  else (setServo s s.gripper_channel 180, [(s.gripper_channel, 180)])

/-- Python's truthiness fallback `angle or 180` (line 292): both `None` and
`0` are falsy, so an angle of exactly 0 also yields 180. -/
def pyOr180 (a : Option ℚ) : ℚ :=
  match a with
  | none => 180
  | some x => if x = 0 then 180 else x

/-- `get_gripper_angle` lines 288-292: 180 in simulation mode, otherwise
`self.kit.servo[self.gripper_channel].angle or 180`. -/
def get_gripper_angle (s : RobotState) : ℚ :=
  if s.simulation_mode then 180 else pyOr180 (s.servoAngles s.gripper_channel)

/-- The dictionary returned by `get_status` lines 395-409. -/
structure Status where
  ready : Bool
  busy : Bool
  simulation : Bool
  position : String
  last_action : ℚ
  gripper : String

/-- `get_status` lines 395-409: a read of controller state; the `gripper`
field is `"open" if self.get_gripper_angle() < 90 else "closed"`. -/
def get_status (s : RobotState) : Status :=
  { ready := s.arm_ready
    busy := s.is_busy
    simulation := s.simulation_mode
    position := s.current_position
    last_action := s.last_action_time
    gripper := if get_gripper_angle s < 90 then "open" else "closed" }

/-- `emergency_stop` lines 375-393: in hardware mode, re-command channels
0-3 to the angle they currently report (skipping servos whose angle reads
`None`; read errors are caught by the `except` of line 389), then set
`is_busy = False`.  No other attribute is touched. -/
def emergency_stop (s : RobotState) : RobotState × List (ℕ × ℚ) :=
  if s.simulation_mode then ({ s with is_busy := false }, [])
  else
    let ws := (List.range 4).filterMap
      (fun ch => (s.servoAngles ch).map (fun a => (ch, a)))
    ({ applyWrites s ws with is_busy := false }, ws)

/-- A concrete post-initialization hardware-mode state: the preset table of
`Settings.ARM_POSITIONS`, gripper on channel 3 (`Settings.GRIPPER_CHANNEL`),
arm joints at the neutral 90 of `_initialize_servos`, gripper closed at 180,
`current_position = "home"`. -/
def testState : RobotState :=
  { simulation_mode := false
    arm_ready := true
    is_busy := false
    last_action_time := 0
    current_position := "home"
    gripper_channel := 3
    positions := fun name =>
      if name = "home" then some [(0, 120), (1, 45), (2, 45)]
      else if name = "pickup" then some [(0, 0), (1, 0), (2, 180)]
      else if name = "defective" then some [(0, 180), (1, 0), (2, 180)]
      else if name = "non_defective" then some [(0, 90), (1, 0), (2, 180)]
      else none
    servoAngles := fun ch => if ch = 3 then some 180 else some 90 }

/-- The outcome of one `handle_object` invocation: the final controller
state, the servo write trace, and whether the `try` body ran to completion
(`false` when an exception was raised and caught by the `except` of
line 368). -/
structure HandleResult where
  state : RobotState
  writes : List (ℕ × ℚ)
  completed : Bool

/-- Run the statements of the `try` body of `handle_object` in order.  Each
action either succeeds (returning the new state and its writes) or raises
(`none`, e.g. a failing preset or dict lookup).  `faultAfter = some k`
injects an externally raised exception (actuator fault, cancellation, ...)
once `k` actions have completed; the remaining statements are abandoned, as
the single `except` of line 368 catches everything. -/
def runBody : List (RobotState → Option (RobotState × List (ℕ × ℚ))) →
    RobotState → Option ℕ → HandleResult
  | [], s, _ => ⟨s, [], true⟩
  | a :: rest, s, faultAfter =>
    if faultAfter = some 0 then ⟨s, [], false⟩
    else
      match a s with
      | none => ⟨s, [], false⟩
      | some (s1, ws) =>
        let r := runBody rest s1 (faultAfter.map (fun n => n - 1))
        ⟨r.state, ws ++ r.writes, r.completed⟩

/-- The statements of the `try` body of `handle_object` lines 303-366, in
source order: resolve the three presets (lines 305-313), the coordinated
pick approach, `current_position = "pickup"`, grasp, lift, transit, place,
`current_position = place`, release, lift again, the coordinated return,
`current_position = "home"`.  Dictionary subscripts (`self.positions[...]`,
`pick_position[0]`, `place_position[i]`) are fallible lookups. -/
def handleActs (defective : Bool) (steps : ℕ) :
    List (RobotState → Option (RobotState × List (ℕ × ℚ))) :=
  let placeName := if defective then "defective" else "non_defective"
  [fun s => do
      let _ ← s.positions "home"
      let _ ← s.positions "pickup"
      let _ ← s.positions placeName
      some (s, []),
   fun s => do
      let pick ← s.positions "pickup"
      some (move_to_position_with_gripper s pick 180 0 steps),
   fun s => some ({ s with current_position := "pickup" }, []),
   fun s => some (gripper_close s),
   fun s => do
      let pick ← s.positions "pickup"
      let p0 ← List.lookup 0 pick
      some (move_to_position s [(0, p0), (1, 45), (2, 45)] steps),
   fun s => do
      let place ← s.positions placeName
      let p0 ← List.lookup 0 place
      some (move_to_position s [(0, p0), (1, 45), (2, 45)] steps),
   fun s => do
      let place ← s.positions placeName
      let p0 ← List.lookup 0 place
      let p1 ← List.lookup 1 place
      let p2 ← List.lookup 2 place
      some (move_to_position s [(0, p0), (1, p1), (2, p2)] steps),
   fun s => some ({ s with current_position := placeName }, []),
   fun s => some (gripper_open s),
   fun s => do
      let place ← s.positions placeName
      let p0 ← List.lookup 0 place
      some (move_to_position s [(0, p0), (1, 45), (2, 45)] steps),
   fun s => do
      let home ← s.positions "home"
      some (move_to_position_with_gripper s home 0 180 steps),
   fun s => some ({ s with current_position := "home" }, [])]

/-- `handle_object(defective)` lines 294-373: set `is_busy = True`
(line 301, unconditionally — the method performs no busy check), run the
`try` body, catch any exception (line 368), and in the `finally` of
line 371 set `is_busy = False` and `last_action_time = time.time()` (the
wall-clock reading is the parameter `now`).  `steps` is the resolved
`Settings.MOVEMENT_STEPS` used by the inner moves; `faultAfter` is the
fault-injection point (`none` for a fault-free run). -/
def handle_object (s : RobotState) (defective : Bool) (now : ℚ) (steps : ℕ)
    (faultAfter : Option ℕ) : HandleResult :=
  let s0 := { s with is_busy := true }
  let r := runBody (handleActs defective steps) s0 faultAfter
  ⟨{ r.state with is_busy := false, last_action_time := now }, r.writes, r.completed⟩

lemma smoothMoveWrites_eq_nil (c t : ℚ) (steps : ℕ)
    (h : |clampAngle t - clampAngle c| < 1) :
    smoothMoveWrites c t steps = [] := by
  unfold smoothMoveWrites
  exact if_pos h

lemma smoothMoveWrites_eq_concat (c t : ℚ) (steps : ℕ)
    (h : ¬ |clampAngle t - clampAngle c| < 1) :
    smoothMoveWrites c t steps =
      smoothProfile (clampAngle c) (clampAngle t - clampAngle c) steps ++
        [clampAngle t] := by
  unfold smoothMoveWrites
  exact if_neg h

lemma applyWrites_fields (s : RobotState) (ws : List (ℕ × ℚ)) :
    (applyWrites s ws).is_busy = s.is_busy ∧
    (applyWrites s ws).current_position = s.current_position ∧
    (applyWrites s ws).gripper_channel = s.gripper_channel ∧
    (applyWrites s ws).simulation_mode = s.simulation_mode ∧
    (applyWrites s ws).last_action_time = s.last_action_time := by
  induction ws generalizing s with
  | nil => exact ⟨rfl, rfl, rfl, rfl, rfl⟩
  | cons w rest ih => exact ih (setServo s w.1 w.2)

lemma applyWrites_servo_other (s : RobotState) (ws : List (ℕ × ℚ)) (c : ℕ)
    (h : ∀ w ∈ ws, w.1 ≠ c) :
    (applyWrites s ws).servoAngles c = s.servoAngles c := by
  induction ws generalizing s with
  | nil => rfl
  | cons w rest ih =>
    show (applyWrites (setServo s w.1 w.2) rest).servoAngles c = s.servoAngles c
    rw [ih (setServo s w.1 w.2) (fun x hx => h x (List.mem_cons_of_mem _ hx))]
    show (if c = w.1 then some w.2 else s.servoAngles c) = s.servoAngles c
    exact if_neg (fun hc => (h w (List.mem_cons_self w rest)) hc.symm)

lemma applyWrites_last (s : RobotState) (ch : ℕ) (l : List ℚ) (a : ℚ) :
    (applyWrites s ((l ++ [a]).map (fun x => (ch, x)))).servoAngles ch = some a := by
  induction l generalizing s with
  | nil =>
    show (setServo s ch a).servoAngles ch = some a
    simp [setServo]
  | cons b rest ih => exact ih (setServo s ch b)

lemma smooth_move_fields (s : RobotState) (ch : ℕ) (target : ℚ) (steps : ℕ) :
    (smooth_move s ch target steps).1.is_busy = s.is_busy ∧
    (smooth_move s ch target steps).1.current_position = s.current_position ∧
    (smooth_move s ch target steps).1.gripper_channel = s.gripper_channel ∧
    (smooth_move s ch target steps).1.simulation_mode = s.simulation_mode ∧
    (smooth_move s ch target steps).1.last_action_time = s.last_action_time := by
  unfold smooth_move
  split
  · exact ⟨rfl, rfl, rfl, rfl, rfl⟩
  · exact applyWrites_fields s _

lemma smooth_move_writes_channel (s : RobotState) (ch : ℕ) (target : ℚ) (steps : ℕ) :
    ∀ w ∈ (smooth_move s ch target steps).2, w.1 = ch := by
  intro w hw
  unfold smooth_move at hw
  split at hw
  · exact absurd hw (List.not_mem_nil w)
  · obtain ⟨a, _, rfl⟩ := List.mem_map.mp hw
    rfl

lemma smooth_move_servo_other (s : RobotState) (ch : ℕ) (target : ℚ) (steps : ℕ)
    (c : ℕ) (h : c ≠ ch) :
    (smooth_move s ch target steps).1.servoAngles c = s.servoAngles c := by
  unfold smooth_move
  split
  · rfl
  · refine applyWrites_servo_other s _ c ?_
    intro w hw
    obtain ⟨a, _, rfl⟩ := List.mem_map.mp hw
    exact fun hc => h hc.symm

lemma moveThreads_writes_channels (s : RobotState) (l : List (ℕ × ℚ)) (steps : ℕ) :
    ∀ w ∈ (moveThreads s l steps).2, ∃ p ∈ l, w.1 = p.1 := by
  induction l generalizing s with
  | nil => intro w hw; exact absurd hw (List.not_mem_nil w)
  | cons p rest ih =>
    intro w hw
    rcases List.mem_append.mp hw with h1 | h2
    · exact ⟨p, List.mem_cons_self p rest, smooth_move_writes_channel s p.1 p.2 steps w h1⟩
    · obtain ⟨q, hq, hw1⟩ := ih (smooth_move s p.1 p.2 steps).1 w h2
      exact ⟨q, List.mem_cons_of_mem p hq, hw1⟩

lemma moveThreads_servo_other (s : RobotState) (l : List (ℕ × ℚ)) (steps : ℕ) (c : ℕ)
    (h : ∀ p ∈ l, p.1 ≠ c) :
    (moveThreads s l steps).1.servoAngles c = s.servoAngles c := by
  induction l generalizing s with
  | nil => rfl
  | cons p rest ih =>
    calc (moveThreads s (p :: rest) steps).1.servoAngles c
        = (moveThreads (smooth_move s p.1 p.2 steps).1 rest steps).1.servoAngles c := rfl
      _ = (smooth_move s p.1 p.2 steps).1.servoAngles c :=
          ih (smooth_move s p.1 p.2 steps).1 (fun q hq => h q (List.mem_cons_of_mem p hq))
      _ = s.servoAngles c := smooth_move_servo_other s p.1 p.2 steps c
          (fun hc => h p (List.mem_cons_self p rest) hc.symm)

lemma mem_filter_ne_gripper (s : RobotState) (pos : List (ℕ × ℚ)) :
    ∀ p ∈ pos.filter (fun p => !(p.1 == s.gripper_channel)), p.1 ≠ s.gripper_channel := by
  intro p hp
  simpa using (List.mem_filter.mp hp).2

unseal Rat.add Rat.sub Rat.mul Rat.inv in
/-- C1: the claim says a `handle_object` call made while `is_busy` is true is
rejected with `Busy`, commands no actuator, and starts no second sequence.
The source method performs no busy check at all: at the concrete
post-initialization state with `is_busy` forced to true, `handle_object`
still runs the whole sequence to completion (28 actuator writes, body
completed) instead of rejecting. -/
theorem C1_counterexample :
    ({ testState with is_busy := true }).is_busy = true ∧
    (handle_object { testState with is_busy := true } true 100 1 none).writes ≠ [] ∧
    (handle_object { testState with is_busy := true } true 100 1 none).completed = true := by
  refine ⟨rfl, ?_, ?_⟩ <;> decide

/-- C1 (amended): `handle_object` performs no busy check: its result is
entirely independent of the `is_busy` flag on entry, so a call made while
busy runs exactly the same full sequence as a call made while ready — no
`Busy` rejection exists in the method; admission control is only a
non-atomic caller-side test of `is_busy`. -/
theorem C1_no_busy_admission_check (s : RobotState) (b d : Bool) (now : ℚ)
    (steps : ℕ) (f : Option ℕ) :
    handle_object { s with is_busy := b } d now steps f = handle_object s d now steps f := rfl

/-- C2: every exit path of `handle_object` — normal completion, injected
fault at any point, or a raised exception from a failed lookup — leaves
`is_busy = false` and `last_action_time` set to the wall-clock reading
`now`, by the `finally` block of lines 371-373. -/
theorem C2_busy_always_released (s : RobotState) (d : Bool) (now : ℚ) (steps : ℕ)
    (f : Option ℕ) :
    (handle_object s d now steps f).state.is_busy = false ∧
    (handle_object s d now steps f).state.last_action_time = now := ⟨rfl, rfl⟩

unseal Rat.add Rat.sub Rat.mul Rat.inv in
/-- C3: the claim says `emergency_stop` leaves `current_position = "unknown"`.
The source only resets `is_busy`; at the concrete post-initialization state
the position after `emergency_stop` is still `"home"`, not `"unknown"`. -/
theorem C3_counterexample :
    (emergency_stop testState).1.current_position = "home" ∧
    (emergency_stop testState).1.current_position ≠ "unknown" := by
  refine ⟨?_, ?_⟩ <;> decide

/-- C3 (amended): after any call to `emergency_stop` the controller has
`is_busy = false` and the call never raises (its servo loop is wrapped in
`try`/`except`), but `current_position` is left exactly as it was — the
method does not set it to `"unknown"`. -/
theorem C3_stop_clears_busy_keeps_position (s : RobotState) :
    (emergency_stop s).1.is_busy = false ∧
    (emergency_stop s).1.current_position = s.current_position := by
  unfold emergency_stop
  split
  · exact ⟨rfl, rfl⟩
  · exact ⟨rfl, (applyWrites_fields s _).2.1⟩

unseal Rat.add Rat.sub Rat.mul Rat.inv in
/-- C4: the claim says a faulted or cancelled run exits with
`current_position = "unknown"`.  With a fault injected right after the
grasp step, the run aborts partway (body not completed) yet exits with
`current_position = "pickup"` — the label assigned after the pick motion —
not `"unknown"`. -/
theorem C4_counterexample :
    (handle_object testState true 100 1 (some 4)).completed = false ∧
    (handle_object testState true 100 1 (some 4)).state.current_position = "pickup" ∧
    (handle_object testState true 100 1 (some 4)).state.current_position ≠ "unknown" := by
  refine ⟨?_, ?_, ?_⟩ <;> decide

unseal Rat.add Rat.sub Rat.mul Rat.inv in
/-- C4 (amended): a run of `handle_object` that faults partway exits with
`current_position` equal to the last label assigned before the fault, never
`"unknown"`: for any fault injected between the grasp step and the place
step the exit position is `"pickup"`. -/
theorem C4_fault_keeps_last_label (k : ℕ) (h3 : 3 ≤ k) (h7 : k ≤ 7) :
    (handle_object testState true 100 1 (some k)).completed = false ∧
    (handle_object testState true 100 1 (some k)).state.current_position = "pickup" := by
  interval_cases k <;> exact ⟨by decide, by decide⟩

unseal Rat.add Rat.sub Rat.mul Rat.inv in
theorem C4_witness :
    (3 ≤ 5 ∧ 5 ≤ 7) ∧
    ((handle_object testState true 100 1 (some 5)).completed = false ∧
      (handle_object testState true 100 1 (some 5)).state.current_position = "pickup") :=
  ⟨⟨by decide, by decide⟩, C4_fault_keeps_last_label 5 (by decide) (by decide)⟩

/-- C5: for a hardware-mode `smooth_move` with `steps ≥ 1` that is not
skipped by the 1-degree rule, the write sequence interpolates between the
clamped start and clamped target, and the last angle written — and the
servo's final state — equal `clamp(target, 0, 180)` exactly, by the forced
final write of line 151. -/
theorem C5_final_write_exact (s : RobotState) (ch : ℕ) (target : ℚ) (steps : ℕ)
    (hsim : s.simulation_mode = false) (_hsteps : 1 ≤ steps)
    (hmove : ¬ |clampAngle target - clampAngle ((s.servoAngles ch).getD 0)| < 1) :
    (smooth_move s ch target steps).2 =
      ((smoothProfile (clampAngle ((s.servoAngles ch).getD 0))
          (clampAngle target - clampAngle ((s.servoAngles ch).getD 0)) steps) ++
        [clampAngle target]).map (fun a => (ch, a)) ∧
    ((smooth_move s ch target steps).2).getLast? = some (ch, clampAngle target) ∧
    (smooth_move s ch target steps).1.servoAngles ch = some (clampAngle target) := by
  have key : smooth_move s ch target steps =
      (applyWrites s ((smoothProfile (clampAngle ((s.servoAngles ch).getD 0))
            (clampAngle target - clampAngle ((s.servoAngles ch).getD 0)) steps ++
          [clampAngle target]).map (fun a => (ch, a))),
        (smoothProfile (clampAngle ((s.servoAngles ch).getD 0))
            (clampAngle target - clampAngle ((s.servoAngles ch).getD 0)) steps ++
          [clampAngle target]).map (fun a => (ch, a))) := by
    unfold smooth_move
    rw [if_neg (by simp [hsim]), smoothMoveWrites_eq_concat _ _ steps hmove]
  refine ⟨?_, ?_, ?_⟩
  · rw [key]
  · rw [key, List.map_append]
    exact List.getLast?_concat _
  · rw [key]
    exact applyWrites_last s ch _ _

unseal Rat.add Rat.sub Rat.mul Rat.inv in
theorem C5_witness :
    (testState.simulation_mode = false ∧ 1 ≤ 2 ∧
      ¬ |clampAngle 120 - clampAngle ((testState.servoAngles 0).getD 0)| < 1) ∧
    ((smooth_move testState 0 120 2).2).getLast? = some (0, clampAngle 120) :=
  ⟨⟨rfl, by decide, by decide⟩,
    (C5_final_write_exact testState 0 120 2 rfl (by decide) (by decide)).2.1⟩

/-- C6: on normalized progress `t ∈ (0, 1]`, the easing value computed by
`smooth_move` (line 146) and by the gripper branch of
`move_to_position_with_gripper` (line 235) equals `2 t²` for `t < 1/2` and
`1 - 2 (1 - t)²` otherwise: the source's `-1 + (4 - 2 t) t` is that exact
polynomial. -/
theorem C6_easing_formula (t : ℚ) (_h0 : 0 < t) (_h1 : t ≤ 1) :
    easedT t = (if t < 1/2 then 2 * t ^ 2 else 1 - 2 * (1 - t) ^ 2) ∧
    gripperEasedT t = (if t < 1/2 then 2 * t ^ 2 else 1 - 2 * (1 - t) ^ 2) := by
  refine ⟨?_, ?_⟩ <;>
    · simp only [easedT, gripperEasedT]
      split <;> ring

theorem C6_witness :
    ((0 : ℚ) < 3/4 ∧ (3/4 : ℚ) ≤ 1) ∧
    easedT (3/4) = (if (3/4 : ℚ) < 1/2 then 2 * (3/4 : ℚ) ^ 2 else 1 - 2 * (1 - 3/4) ^ 2) :=
  ⟨⟨by norm_num, by norm_num⟩, (C6_easing_formula (3/4) (by norm_num) (by norm_num)).1⟩

/-- C7: when the clamped target is within 1 degree of the clamped current
angle, a hardware-mode `smooth_move` performs no actuator write at all and
leaves the state unchanged (the early return of lines 140-141). -/
theorem C7_negligible_move_noop (s : RobotState) (ch : ℕ) (target : ℚ) (steps : ℕ)
    (hsim : s.simulation_mode = false)
    (hsmall : |clampAngle target - clampAngle ((s.servoAngles ch).getD 0)| < 1) :
    (smooth_move s ch target steps).2 = [] ∧ (smooth_move s ch target steps).1 = s := by
  have key : smooth_move s ch target steps = (s, []) := by
    unfold smooth_move
    rw [if_neg (by simp [hsim]), smoothMoveWrites_eq_nil _ _ steps hsmall]
    rfl
  exact ⟨by rw [key], by rw [key]⟩

unseal Rat.add Rat.sub Rat.mul Rat.inv in
theorem C7_witness :
    (testState.simulation_mode = false ∧
      |clampAngle 90 - clampAngle ((testState.servoAngles 0).getD 0)| < 1) ∧
    (smooth_move testState 0 90 5).2 = [] :=
  ⟨⟨rfl, by decide⟩, (C7_negligible_move_noop testState 0 90 5 rfl (by decide)).1⟩

unseal Rat.add Rat.sub Rat.mul Rat.inv in
/-- C8: the claim says `get_status` reports `"open"` exactly when the last
commanded gripper angle is below 90.  After `gripper_open` commands angle 0
(which is below 90), `get_gripper_angle` evaluates Python's `angle or 180`
on the falsy value 0 and yields 180, so `get_status` reports `"closed"` —
the code contradicts both the claim and its own docstring, which scopes the
180 fallback to simulation mode only. -/
theorem C8_open_gripper_reports_closed :
    (gripper_open testState).1.servoAngles testState.gripper_channel = some 0 ∧
    get_gripper_angle (gripper_open testState).1 = 180 ∧
    (get_status (gripper_open testState).1).gripper = "closed" := by
  refine ⟨?_, ?_, ?_⟩ <;> decide

/-- C9: the claim says every in-flight mover checks a synchronized
stop-requested flag at each interpolation iteration.  No such flag exists in
the module: the write sequence of `smooth_move` is a total function of the
current angle, the target and the step count alone, and a non-skipped move
always emits all `steps + 1` writes — an `emergency_stop` issued mid-profile
cannot shorten it. -/
theorem C9_profile_never_truncated (current target : ℚ) (steps : ℕ)
    (h : ¬ |clampAngle target - clampAngle current| < 1) :
    (smoothMoveWrites current target steps).length = steps + 1 := by
  rw [smoothMoveWrites_eq_concat current target steps h]
  unfold smoothProfile
  rw [List.length_append, List.length_map, List.length_range, List.length_singleton]

unseal Rat.add Rat.sub Rat.mul Rat.inv in
theorem C9_witness :
    (¬ |clampAngle 90 - clampAngle 0| < 1) ∧ (smoothMoveWrites 0 90 3).length = 3 + 1 :=
  ⟨by decide, C9_profile_never_truncated 0 90 3 (by decide)⟩

/-- C10: arm moves never touch the gripper: every write of
`move_to_position` targets a channel different from the configured gripper
channel and leaves the gripper servo unchanged, and in
`move_to_position_with_gripper` every gripper-channel write comes from the
explicit coordinated-gripper branch (whose samples are
`gripperBranchSamples`); when that branch is skipped the gripper servo is
unchanged there too. -/
theorem C10_arm_moves_never_write_gripper (s : RobotState) (pos : List (ℕ × ℚ))
    (startG endG : ℚ) (steps : ℕ) :
    (∀ w ∈ (move_to_position s pos steps).2, w.1 ≠ s.gripper_channel) ∧
    (move_to_position s pos steps).1.servoAngles s.gripper_channel =
      s.servoAngles s.gripper_channel ∧
    (∀ w ∈ (move_to_position_with_gripper s pos startG endG steps).2,
      w.1 = s.gripper_channel → w.2 ∈ gripperBranchSamples startG endG steps) ∧
    (¬ |startG - endG| > 5 →
      (move_to_position_with_gripper s pos startG endG steps).1.servoAngles
          s.gripper_channel = s.servoAngles s.gripper_channel) := by
  by_cases hs : s.simulation_mode = true
  · have e1 : move_to_position s pos steps = (s, []) := by
      unfold move_to_position; rw [if_pos hs]
    have e2 : move_to_position_with_gripper s pos startG endG steps = (s, []) := by
      unfold move_to_position_with_gripper; rw [if_pos hs]
    refine ⟨?_, ?_, ?_, ?_⟩
    · intro w hw; rw [e1] at hw; exact absurd hw (List.not_mem_nil w)
    · rw [e1]
    · intro w hw; rw [e2] at hw; exact absurd hw (List.not_mem_nil w)
    · intro _; rw [e2]
  · have e1 : move_to_position s pos steps =
        moveThreads s (pos.filter (fun p => !(p.1 == s.gripper_channel))) steps := by
      unfold move_to_position; rw [if_neg hs]
    refine ⟨?_, ?_, ?_, ?_⟩
    · intro w hw; rw [e1] at hw
      obtain ⟨p, hp, hwp⟩ := moveThreads_writes_channels s _ steps w hw
      rw [hwp]; exact mem_filter_ne_gripper s pos p hp
    · rw [e1]; exact moveThreads_servo_other s _ steps _ (mem_filter_ne_gripper s pos)
    · intro w hw hwg
      by_cases hb : |startG - endG| > 5
      · have e2 : move_to_position_with_gripper s pos startG endG steps =
            (applyWrites
                (moveThreads s (pos.filter (fun p => !(p.1 == s.gripper_channel))) steps).1
                ((gripperBranchSamples startG endG steps).map (fun a => (s.gripper_channel, a))),
              (moveThreads s (pos.filter (fun p => !(p.1 == s.gripper_channel))) steps).2 ++
                (gripperBranchSamples startG endG steps).map
                  (fun a => (s.gripper_channel, a))) := by
          unfold move_to_position_with_gripper; rw [if_neg hs, if_pos hb]
        rw [e2] at hw
        rcases List.mem_append.mp hw with h1 | h2
        · obtain ⟨p, hp, hwp⟩ := moveThreads_writes_channels s _ steps w h1
          exact absurd (hwp.symm.trans hwg) (mem_filter_ne_gripper s pos p hp)
        · obtain ⟨a, ha, rfl⟩ := List.mem_map.mp h2
          exact ha
      · have e2 : move_to_position_with_gripper s pos startG endG steps =
            moveThreads s (pos.filter (fun p => !(p.1 == s.gripper_channel))) steps := by
          unfold move_to_position_with_gripper; rw [if_neg hs, if_neg hb]
        rw [e2] at hw
        obtain ⟨p, hp, hwp⟩ := moveThreads_writes_channels s _ steps w hw
        exact absurd (hwp.symm.trans hwg) (mem_filter_ne_gripper s pos p hp)
    · intro hb
      have e2 : move_to_position_with_gripper s pos startG endG steps =
          moveThreads s (pos.filter (fun p => !(p.1 == s.gripper_channel))) steps := by
        unfold move_to_position_with_gripper; rw [if_neg hs, if_neg hb]
      rw [e2]
      exact moveThreads_servo_other s _ steps _ (mem_filter_ne_gripper s pos)

theorem C10_witness :
    (move_to_position testState [(0, 120), (3, 7), (1, 45)] 2).1.servoAngles
        testState.gripper_channel = testState.servoAngles testState.gripper_channel :=
  (C10_arm_moves_never_write_gripper testState [(0, 120), (3, 7), (1, 45)] 180 0 2).2.1

end RobotArm
